import Mathlib

/-!
Verification of the real-time audio capture pipeline of the
azureai-assistant-tool repository, shallowly embedded in Lean 4.

The embedded code comes from
`sdk/azure-ai-assistant/azure/ai/assistant/audio/audio_capture.py`
(class `AudioCapture`: the circular pre-roll buffer, the speech-onset
cross-fade and the PyAudio input callback `handle_input_audio`) and from
`sdk/azure-ai-assistant/azure/ai/assistant/audio/realtime_audio.py`
(class `RealtimeAudioCaptureEventHandler`: the conversation state machine,
the silence timer and the bounded non-blocking send queue).

Modelling conventions:
* int16 audio samples are `ℤ` values; the numpy `astype(np.int16)` cast is
  `toInt16` (wrap-around modulo 2^16 into [-32768, 32767]);
* numpy float32 fade arithmetic is idealised as exact `ℚ` arithmetic with
  `np.round` (round half to even) embedded as `npRound`;
* a Python exception that a `try/except` block catches is handled inside the
  embedded function, and an uncaught exception is an `Except.error`; the
  places that can raise (sample conversion, the VAD, the event-handler
  callbacks) are driven by explicit boolean oracles;
* wall-clock logging throttles have no functional effect and are omitted;
  counters that the code keeps are modelled.
-/

namespace AzureAudio

/-- Wrap-around cast of an integer into the signed 16-bit range,
the semantics of numpy `astype(np.int16)`. -/
def toInt16 (z : ℤ) : ℤ :=
  (z + 32768) % 65536 - 32768

/-- Round half to even on rationals, the semantics of `np.round` applied to a
scalar. -/
def npRound (q : ℚ) : ℤ :=
  let f : ℤ := q.num.fdiv q.den
  let frac : ℚ := q - (f : ℚ)
  if frac < 1 / 2 then f
  else if 1 / 2 < frac then f + 1
  else if f % 2 = 0 then f else f + 1

/-- Evenly spaced rational samples from `a` to `b` inclusive, the semantics of
`np.linspace(a, b, n)` (idealised from float32 to `ℚ`). -/
def linspace (a b : ℚ) (n : Nat) : List ℚ :=
  if n ≤ 1 then (List.range n).map (fun _ => a)
  else (List.range n).map (fun i => a + (b - a) * i / (n - 1))

/-- Scale an int16 sample by a rational fade coefficient, round, and cast back
to int16: one element of `np.round(section * fade).astype(np.int16)`. -/
def scaleRound (x : ℤ) (r : ℚ) : ℤ :=
  toInt16 (npRound ((x : ℚ) * r))

/-- Replace the last `n` samples of `l` by the same samples scaled with the
linear fade-out ramp `np.linspace(1.0, 0.0, n)`
(line `current_buffer[-fade_length:] = np.round(buffer_fade_section * fade_out).astype(np.int16)`). -/
def applyFadeOut (l : List ℤ) (n : Nat) : List ℤ :=
  l.take (l.length - n) ++ List.zipWith scaleRound (l.drop (l.length - n)) (linspace 1 0 n)

/-- Replace the first `n` samples of `l` by the same samples scaled with the
linear fade-in ramp `np.linspace(0.0, 1.0, n)`
(line `audio_data[:fade_length] = np.round(audio_fade_section * fade_in).astype(np.int16)`). -/
def applyFadeIn (l : List ℤ) (n : Nat) : List ℤ :=
  List.zipWith scaleRound (l.take n) (linspace 0 1 n) ++ l.drop n

/-- The most recent `n` entries of a list (all of it when it is shorter). -/
def lastN {α : Type*} (n : Nat) (l : List α) : List α :=
  l.drop (l.length - n)

/-! ## The circular pre-roll buffer (`AudioCapture._update_buffer` /
`AudioCapture._get_buffer_content`) -/

/-- Embedding of `AudioCapture._update_buffer`.  The Python method mutates
`buffer` through numpy slice assignment and returns the new pointer; here the
new buffer contents and the new pointer are returned as a pair.
Python slice writes become take/drop concatenations:
`buffer[pointer:pointer+k] = c` is
`buffer.take pointer ++ c ++ buffer.drop (pointer + k)`. -/
def update_buffer (new_audio buffer : List ℤ) (pointer buffer_size : Nat) :
    List ℤ × Nat :=
  if buffer_size ≤ new_audio.length then
    (new_audio.drop (new_audio.length - buffer_size), 0)
  else if new_audio.length ≤ buffer_size - pointer then
    (buffer.take pointer ++ new_audio ++ buffer.drop (pointer + new_audio.length),
     pointer + new_audio.length)
  else
    (new_audio.drop (buffer_size - pointer) ++
       (buffer.drop (new_audio.length - (buffer_size - pointer))).take
         (pointer - (new_audio.length - (buffer_size - pointer))) ++
       new_audio.take (buffer_size - pointer),
     new_audio.length - (buffer_size - pointer))

/-- Embedding of `AudioCapture._get_buffer_content`: read the circular buffer
in chronological order starting at the write pointer. -/
def get_buffer_content (buffer : List ℤ) (pointer : Nat) : List ℤ :=
  if pointer = 0 then buffer
  else buffer.drop pointer ++ buffer.take pointer

/-- Fold `update_buffer` over a sequence of chunks, mirroring repeated calls
of the capture callback on successive chunks. -/
def feedChunks (buffer_size : Nat) (chunks : List (List ℤ))
    (buffer : List ℤ) (pointer : Nat) : List ℤ × Nat :=
  match chunks with
  | [] => (buffer, pointer)
  | c :: cs =>
      let bp := update_buffer c buffer pointer buffer_size
      feedChunks buffer_size cs bp.1 bp.2

/-! ## The capture callback (`AudioCapture.handle_input_audio`) -/

/-- Mutable per-instance state of `AudioCapture` touched by the callback. -/
structure CaptureState where
  audio_buffer : List ℤ
  buffer_pointer : Nat
  speech_started : Bool
  overflow_count : Nat
  deriving DecidableEq, Repr

/-- Events the callback delivers to the registered
`AudioCaptureEventHandler`. -/
inductive AudioEvent where
  | speechStart : AudioEvent
  | speechEnd : AudioEvent
  | sendAudio : List ℤ → AudioEvent
  deriving DecidableEq, Repr

/-- PortAudio reported an input overflow for this callback:
`bool(status & PA_INPUT_OVERFLOW) or status == 2` under `if status:`. -/
def isOverflowStatus (status : Nat) : Bool :=
  status ≠ 0 && (status &&& 2 ≠ 0 || status = 2)

/-- Embedding of `AudioCapture.handle_input_audio`.

Configuration: `cfs` is `self.cross_fade_samples`, `N` is `self.buffer_size`,
`vadConfigured` says whether `self.vad` is not `None`.
Per-call inputs: `indata` is the chunk (already as int16 samples; the
`np.frombuffer` conversion may raise `ValueError`, modelled by the oracle
`convFails`), `status` the PortAudio status flags, `vadResult` the pair
`(speech_detected, is_speech)` that `self.vad.process_audio_chunk` returns,
`vadFails` whether that call (or the keyword push next to it) raises, and
`handlerFails` whether a call into the event handler raises.

The value is `Except.error ()` when an uncaught exception escapes the
callback, and otherwise `Except.ok` of the new state, the event-handler calls
made in order, and `true` for the returned `pyaudio.paContinue`. -/
def handleInputAudio (cfs N : Nat) (st : CaptureState) (indata : List ℤ)
    (status : Nat) (convFails : Bool) (vadConfigured : Bool)
    (vadResult : Bool × Bool) (vadFails : Bool) (handlerFails : Bool) :
    Except Unit (CaptureState × List AudioEvent × Bool) :=
  if isOverflowStatus status then
    .ok ({ st with overflow_count := st.overflow_count + 1 }, [], true)
  else if convFails then
    -- `except ValueError` around `np.frombuffer`: log and keep streaming
    .ok (st, [], true)
  else if ¬ vadConfigured then
    -- no VAD: forward the raw chunk directly (unguarded handler call)
    if handlerFails then .error ()
    else .ok (st, [.sendAudio indata], true)
  else
    -- `try: ... vad.process_audio_chunk ... except: (False, False)`
    let speech_detected := if vadFails then false else vadResult.1
    let is_speech := if vadFails then false else vadResult.2
    if speech_detected || st.speech_started then
      if is_speech then
        if ¬ st.speech_started then
          -- first speech chunk: the buffer is updated in place, its content
          -- is read back, and the cross-fade is applied
          let bp1 := update_buffer indata st.audio_buffer st.buffer_pointer N
          let current_buffer := get_buffer_content bp1.1 bp1.2
          let fade_length := min cfs (min current_buffer.length indata.length)
          -- the fade mutates both `current_buffer` (a copy) and `audio_data`
          let faded_audio :=
            if 0 < fade_length then applyFadeIn indata fade_length else indata
          let combined_audio :=
            if 0 < fade_length then
              applyFadeOut current_buffer fade_length ++ faded_audio
            else indata
          if handlerFails then .error ()
          else
            -- final `if self.vad:` update runs on the mutated `audio_data`
            let bp2 := update_buffer faded_audio bp1.1 bp1.2 N
            .ok ({ st with
                     audio_buffer := bp2.1
                     buffer_pointer := bp2.2
                     speech_started := true },
                 [.speechStart, .sendAudio combined_audio], true)
        else
          if handlerFails then .error ()
          else
            let bp2 := update_buffer indata st.audio_buffer st.buffer_pointer N
            .ok ({ st with
                     audio_buffer := bp2.1
                     buffer_pointer := bp2.2 },
                 [.sendAudio indata], true)
      else
        if handlerFails then .error ()
        else
          let bp2 := update_buffer indata st.audio_buffer st.buffer_pointer N
          .ok ({ st with
                   audio_buffer := bp2.1
                   buffer_pointer := bp2.2
                   speech_started := false },
               [.speechEnd], true)
    else
      let bp2 := update_buffer indata st.audio_buffer st.buffer_pointer N
      .ok ({ st with
               audio_buffer := bp2.1
               buffer_pointer := bp2.2 },
           [], true)

/-! ## Construction (`AudioCapture.__init__`), VAD part -/

/-- Embedding of the error-relevant control flow of `AudioCapture.__init__`.

`vadParamsProvided` says `vad_parameters is not None`; `vadInitRaises` says
the detector constructor (`SileroVoiceActivityDetector` or
`VoiceActivityDetector`) raises; `keywordModelProvided` says a
`keyword_model_file` was given and `keywordInitRaises` says
`AzureKeywordRecognizer` raises.  The result is `Except.error ()` when
`__init__` raises `EngineError` to the caller, and otherwise `Except.ok` of
whether a VAD ended up configured (`self.vad is not None`). -/
def audioCaptureInit (vadParamsProvided vadInitRaises : Bool)
    (keywordModelProvided keywordInitRaises : Bool) : Except Unit Bool :=
  let vadConfigured := vadParamsProvided && !vadInitRaises
  if keywordModelProvided && keywordInitRaises then .error ()
  else .ok vadConfigured

/-! ## The conversation state machine and send queue
(`RealtimeAudioCaptureEventHandler` in `realtime_audio.py`) -/

/-- Embedding of `ConversationState`. -/
inductive ConversationState where
  | IDLE : ConversationState
  | KEYWORD_DETECTED : ConversationState
  | CONVERSATION_ACTIVE : ConversationState
  deriving DecidableEq, Repr

/-- Mutable state of `RealtimeAudioCaptureEventHandler` relevant to the
claims.  The `threading.Timer` handle is modelled by whether a timer is
pending (`timerActive`) plus a count of timer starts (`timerStarts`), so that
"(re)started" is expressible; the send queue is the list of queued chunks in
FIFO order (front = oldest). -/
structure HandlerState where
  state : ConversationState
  timerActive : Bool
  timerStarts : Nat
  sendQ : List (List ℤ)
  overflow_total : Nat
  overflow_window : Nat
  deriving DecidableEq, Repr

/-- Calls the event handler dispatches to its collaborators (the realtime
client, the audio player, and the keyword recognizer arm/disarm path). -/
inductive RemoteCall where
  | generateResponse : RemoteCall
  | clearInputAudioBuffer : RemoteCall
  | cancelResponse : RemoteCall
  | drainAndRestart : RemoteCall
  | keywordArmed : Bool → RemoteCall
  deriving DecidableEq, Repr

/-- Embedding of `_cancel_silence_timer`. -/
def cancel_silence_timer (st : HandlerState) : HandlerState :=
  { st with timerActive := false }

/-- Embedding of `_start_silence_timer` (cancel, then start a fresh daemon
timer). -/
def start_silence_timer (st : HandlerState) : HandlerState :=
  let st1 := cancel_silence_timer st
  { st1 with timerActive := true, timerStarts := st1.timerStarts + 1 }

/-- Embedding of `_set_state`: record the new state, and cancel the silence
timer whenever the new state is not `CONVERSATION_ACTIVE`. -/
def set_state (st : HandlerState) (new_state : ConversationState) : HandlerState :=
  let st1 := { st with state := new_state }
  if new_state ≠ ConversationState.CONVERSATION_ACTIVE then
    cancel_silence_timer st1
  else st1

/-- Embedding of `_note_overflow` (the rate-limited log line and its window
reset are time-driven and have no functional effect; both counters are
incremented). -/
def note_overflow (st : HandlerState) : HandlerState :=
  { st with
      overflow_total := st.overflow_total + 1
      overflow_window := st.overflow_window + 1 }

/-- Embedding of `send_audio_data` with queue capacity `cap`
(`QUEUE_MAX_CHUNKS`).  `queue.Queue.put_nowait` raises `Full` exactly when
`0 < maxsize ≤ qsize`; on `Full` the handler notes the overflow, evicts the
oldest chunk with `get_nowait`, and re-inserts (which then succeeds). -/
def send_audio_data (cap : Nat) (st : HandlerState) (audio_data : List ℤ) :
    HandlerState :=
  if st.state ≠ ConversationState.CONVERSATION_ACTIVE then st
  else if 0 < cap ∧ cap ≤ st.sendQ.length then
    let st1 := note_overflow st
    { st1 with sendQ := st1.sendQ.drop 1 ++ [audio_data] }
  else
    { st with sendQ := st.sendQ ++ [audio_data] }

/-- Embedding of `on_speech_start`.  `turnDetectionNone` is
`options.turn_detection is None`; `audioPlaying` is
`audio_player.is_audio_playing()`.  Returned alongside the new state are the
remote calls dispatched (the offloaded `_interrupt_assistant` sequence). -/
def on_speech_start (turnDetectionNone audioPlaying : Bool)
    (st : HandlerState) : HandlerState × List RemoteCall :=
  let st1 :=
    if st.state = ConversationState.KEYWORD_DETECTED ∨
        st.state = ConversationState.CONVERSATION_ACTIVE then
      cancel_silence_timer (set_state st ConversationState.CONVERSATION_ACTIVE)
    else st
  if turnDetectionNone && audioPlaying &&
      decide (st1.state = ConversationState.CONVERSATION_ACTIVE) then
    (st1, [RemoteCall.clearInputAudioBuffer, RemoteCall.cancelResponse,
           RemoteCall.drainAndRestart])
  else (st1, [])

/-- Embedding of `on_speech_end`. -/
def on_speech_end (turnDetectionNone : Bool) (st : HandlerState) :
    HandlerState × List RemoteCall :=
  if st.state = ConversationState.CONVERSATION_ACTIVE && turnDetectionNone then
    (start_silence_timer st, [RemoteCall.generateResponse])
  else (st, [])

/-- Embedding of `on_keyword_detected`: disarm keyword recognition, move to
`KEYWORD_DETECTED`, start the silence timer. -/
def on_keyword_detected (st : HandlerState) : HandlerState × List RemoteCall :=
  (start_silence_timer (set_state st ConversationState.KEYWORD_DETECTED),
   [RemoteCall.keywordArmed false])

/-- Embedding of `_reset_state_due_to_silence`, the silence-timer expiry
callback.  `audioPlaying` is `audio_player.is_audio_playing()` and
`functionProcessing` is `event_handler.is_function_processing()`. -/
def reset_state_due_to_silence (audioPlaying functionProcessing : Bool)
    (st : HandlerState) : HandlerState × List RemoteCall :=
  if audioPlaying || functionProcessing then
    (start_silence_timer st, [])
  else
    (set_state st ConversationState.IDLE,
     [RemoteCall.keywordArmed true, RemoteCall.clearInputAudioBuffer])

/-- Modelled from the spec: the start-of-speech payload as the specification
words it — take the pre-roll buffer content as it stood before this chunk,
linearly ramp its tail out over the fade length, linearly ramp the new
chunk's head in, sum the two ramped sections, and concatenate the untouched
front of the buffer content, the summed overlap, and the untouched tail of
the chunk. -/
def specOnsetPayload (cfs : Nat) (preContent chunk : List ℤ) : List ℤ :=
  let fade_length := min cfs (min preContent.length chunk.length)
  let oldTail :=
    List.zipWith scaleRound (preContent.drop (preContent.length - fade_length))
      (linspace 1 0 fade_length)
  let newHead :=
    List.zipWith scaleRound (chunk.take fade_length) (linspace 0 1 fade_length)
  preContent.take (preContent.length - fade_length) ++
    List.zipWith (fun a b => a + b) oldTail newHead ++
    chunk.drop fade_length

/-! ## Derived lemmas and claim theorems -/

lemma get_buffer_content_eq (buffer : List ℤ) (pointer : Nat) :
    get_buffer_content buffer pointer =
      buffer.drop pointer ++ buffer.take pointer := by
  unfold get_buffer_content
  split
  · simp [*]
  · rfl

lemma update_buffer_length {buffer : List ℤ} {N : Nat}
    (hB : buffer.length = N) (c : List ℤ) {p : Nat} (hp : p ≤ N) :
    (update_buffer c buffer p N).1.length = N := by
  unfold update_buffer
  by_cases h1 : N ≤ c.length
  · rw [if_pos h1]
    simp
    omega
  · rw [if_neg h1]
    by_cases h2 : c.length ≤ N - p
    · rw [if_pos h2]
      simp [hB]
      omega
    · rw [if_neg h2]
      simp [hB]
      omega

lemma update_buffer_pointer_le {buffer : List ℤ} {N : Nat}
    (c : List ℤ) {p : Nat} (hp : p ≤ N) :
    (update_buffer c buffer p N).2 ≤ N := by
  unfold update_buffer
  by_cases h1 : N ≤ c.length
  · rw [if_pos h1]
    simp
  · rw [if_neg h1]
    by_cases h2 : c.length ≤ N - p
    · rw [if_pos h2]
      simp
      omega
    · rw [if_neg h2]
      simp
      omega

/-- One step of the buffer invariant: writing a chunk into the circular buffer
and reading it back yields the most recent `N` samples of the previous
content followed by the chunk. -/
lemma update_buffer_content {buffer : List ℤ} {N : Nat}
    (hB : buffer.length = N) (c : List ℤ) {p : Nat} (hp : p ≤ N) :
    get_buffer_content (update_buffer c buffer p N).1
        (update_buffer c buffer p N).2 =
      lastN N (get_buffer_content buffer p ++ c) := by
  have hdplen : (buffer.drop p).length = N - p := by simp [hB]
  have htplen : (buffer.take p).length = p := by simp [hB]; omega
  have hcl : (buffer.drop p ++ buffer.take p).length = N := by
    simp [hB]; omega
  rw [get_buffer_content_eq, get_buffer_content_eq]
  unfold lastN
  have hlen : ((buffer.drop p ++ buffer.take p) ++ c).length - N = c.length := by
    rw [List.length_append, hcl]
    omega
  rw [hlen]
  unfold update_buffer
  by_cases h1 : N ≤ c.length
  · -- chunk at least fills the buffer: it is replaced wholesale
    rw [if_pos h1]
    simp only [List.drop_zero, List.take_zero, List.append_nil]
    have hnil : (buffer.drop p ++ buffer.take p).drop c.length = [] :=
      List.drop_eq_nil_of_le (by rw [hcl]; exact h1)
    rw [List.drop_append_eq_append_drop, hnil, hcl, List.nil_append]
  · push_neg at h1
    have hrhs : ((buffer.drop p ++ buffer.take p) ++ c).drop c.length =
        (buffer.drop p).drop c.length ++
          (buffer.take p).drop (c.length - (N - p)) ++ c := by
      rw [List.drop_append_eq_append_drop, hcl]
      have h0 : c.length - N = 0 := by omega
      rw [h0, List.drop_zero, List.drop_append_eq_append_drop, hdplen]
    rw [hrhs]
    by_cases h2 : c.length ≤ N - p
    · -- the chunk fits before the end of the buffer
      rw [if_neg (by omega), if_pos h2]
      dsimp only
      have hfront : (buffer.take p ++ c).length = p + c.length := by
        rw [List.length_append, htplen]
      rw [List.drop_left' hfront, List.take_left' hfront, List.drop_drop]
      have h0 : c.length - (N - p) = 0 := by omega
      rw [h0, List.drop_zero, List.append_assoc]
    · -- the chunk wraps around the end of the buffer
      push_neg at h2
      rw [if_neg (by omega), if_neg (by omega)]
      dsimp only
      have hce : (c.drop (N - p)).length = c.length - (N - p) := by
        simp
      have hnil2 : List.drop (p + c.length) buffer = [] :=
        List.drop_eq_nil_of_le (by rw [hB]; omega)
      rw [List.append_assoc, List.drop_left' hce, List.take_left' hce,
        List.drop_drop, hnil2,
        List.nil_append, List.drop_take, List.append_assoc,
        List.take_append_drop]

lemma get_buffer_content_length {buffer : List ℤ} {N : Nat} (p : Nat)
    (hB : buffer.length = N) : (get_buffer_content buffer p).length = N := by
  rw [get_buffer_content_eq]
  simp [hB]
  omega

lemma lastN_append_lastN {α : Type*} (N : Nat) (x y : List α) :
    lastN N (lastN N x ++ y) = lastN N (x ++ y) := by
  unfold lastN
  rw [List.drop_append_eq_append_drop, List.drop_append_eq_append_drop,
    List.drop_drop, List.length_append, List.length_append, List.length_drop]
  congr 1
  · congr 1
    omega
  · congr 1
    omega

/-- The buffer invariant over a whole chunk sequence: after feeding any chunk
sequence into a well-formed circular buffer, the chronological read yields the
most recent `N` samples of the previous content followed by all fed samples. -/
lemma feedChunks_content {N : Nat} (chunks : List (List ℤ)) :
    ∀ (buffer : List ℤ) (p : Nat), buffer.length = N → p ≤ N →
      get_buffer_content (feedChunks N chunks buffer p).1
          (feedChunks N chunks buffer p).2 =
        lastN N (get_buffer_content buffer p ++ chunks.flatten) := by
  induction chunks with
  | nil =>
      intro buffer p hB hp
      simp only [feedChunks, List.flatten_nil, List.append_nil]
      unfold lastN
      rw [get_buffer_content_length p hB, Nat.sub_self, List.drop_zero]
  | cons c cs ih =>
      intro buffer p hB hp
      simp only [feedChunks]
      rw [ih _ _ (update_buffer_length hB c hp) (update_buffer_pointer_le c hp),
        update_buffer_content hB c hp, lastN_append_lastN]
      rw [List.flatten_cons, ← List.append_assoc]

/-- C1.  Circular pre-roll buffer correctness: for every sequence of chunks
written with `_update_buffer` into a buffer of capacity `N` whose total length
reaches the capacity, `_get_buffer_content` applied to the resulting buffer and
pointer returns exactly the most recent `N` samples of the concatenated input,
in chronological order. -/
theorem preroll_buffer_correct (N : Nat) (chunks : List (List ℤ))
    (hN : 0 < N) (htot : N ≤ chunks.flatten.length) :
    get_buffer_content (feedChunks N chunks (List.replicate N 0) 0).1
        (feedChunks N chunks (List.replicate N 0) 0).2 =
      lastN N chunks.flatten := by
  rw [feedChunks_content chunks (List.replicate N 0) 0 (by simp) (Nat.zero_le N)]
  have h0 : get_buffer_content (List.replicate N (0 : ℤ)) 0 =
      List.replicate N (0 : ℤ) := by
    simp [get_buffer_content]
  rw [h0]
  unfold lastN
  rw [List.drop_append_eq_append_drop]
  have h1 : (List.replicate N (0 : ℤ) ++ chunks.flatten).length - N =
      chunks.flatten.length := by
    rw [List.length_append, List.length_replicate]
    omega
  rw [h1]
  have h2 : (List.replicate N (0 : ℤ)).drop chunks.flatten.length = [] :=
    List.drop_eq_nil_of_le (by rw [List.length_replicate]; exact htot)
  rw [h2, List.nil_append]
  congr 1
  rw [List.length_replicate]

/-- Closed witness for the hypotheses of `preroll_buffer_correct`. -/
theorem preroll_buffer_correct_witness :
    get_buffer_content (feedChunks 2 [[1], [2, 3]] (List.replicate 2 0) 0).1
        (feedChunks 2 [[1], [2, 3]] (List.replicate 2 0) 0).2 =
      lastN 2 ([[1], [2, 3]] : List (List ℤ)).flatten :=
  preroll_buffer_correct 2 [[1], [2, 3]] (by decide) (by decide)

/-- Characterisation of the callback on a fresh speech onset: exact result
state and events, with the buffer content expressed through `lastN`. -/
lemma handleInputAudio_onset (cfs N : Nat) (st : CaptureState) (chunk : List ℤ)
    (status : Nat) (hst : isOverflowStatus status = false)
    (hns : st.speech_started = false)
    (hB : st.audio_buffer.length = N) (hp : st.buffer_pointer ≤ N) :
    handleInputAudio cfs N st chunk status false true (true, true) false false =
      .ok
        ({ st with
             audio_buffer :=
               (update_buffer
                 (if 0 < min cfs (min N chunk.length) then
                   applyFadeIn chunk (min cfs (min N chunk.length)) else chunk)
                 (update_buffer chunk st.audio_buffer st.buffer_pointer N).1
                 (update_buffer chunk st.audio_buffer st.buffer_pointer N).2 N).1
             buffer_pointer :=
               (update_buffer
                 (if 0 < min cfs (min N chunk.length) then
                   applyFadeIn chunk (min cfs (min N chunk.length)) else chunk)
                 (update_buffer chunk st.audio_buffer st.buffer_pointer N).1
                 (update_buffer chunk st.audio_buffer st.buffer_pointer N).2 N).2
             speech_started := true },
         [AudioEvent.speechStart,
          AudioEvent.sendAudio
            (if 0 < min cfs (min N chunk.length) then
              applyFadeOut
                (lastN N (get_buffer_content st.audio_buffer st.buffer_pointer
                  ++ chunk))
                (min cfs (min N chunk.length)) ++
                applyFadeIn chunk (min cfs (min N chunk.length))
            else chunk)],
         true) := by
  have hlen :
      (get_buffer_content
        (update_buffer chunk st.audio_buffer st.buffer_pointer N).1
        (update_buffer chunk st.audio_buffer st.buffer_pointer N).2).length
      = N :=
    get_buffer_content_length _ (update_buffer_length hB chunk hp)
  have hlast :
      (lastN N (get_buffer_content st.audio_buffer st.buffer_pointer ++ chunk)).length
        = N := by
    rw [← update_buffer_content hB chunk hp]
    exact hlen
  unfold handleInputAudio
  rw [hst]
  simp only [Bool.false_eq_true, if_false, not_true, hns,
    update_buffer_content hB chunk hp]
  simp [hlast]
  split_ifs with h
  · rfl
  · rfl

/-- C2 counterexample: at a concrete speech onset (buffer `[1,2,3,4]` with
pointer `0`, chunk `[10,20]`, capacity `4`, cross-fade `2` samples) the code
sends `[3,4,10,0,0,20]`, while the payload the claim describes (pre-chunk
buffer content with its tail ramped out, chunk head ramped in, overlapping
ramped sections summed, results concatenated) is `[1,2,3,20]`: the code reads
the buffer content only after writing the chunk into it, and it concatenates
the two ramped sections instead of summing them. -/
theorem speech_onset_payload_counterexample :
    handleInputAudio 2 4 ⟨[1, 2, 3, 4], 0, false, 0⟩ [10, 20] 0 false true
        (true, true) false false =
      Except.ok
        (⟨[10, 20, 0, 20], 4, true, 0⟩,
         [AudioEvent.speechStart, AudioEvent.sendAudio [3, 4, 10, 0, 0, 20]],
         true) ∧
    specOnsetPayload 2 (get_buffer_content [1, 2, 3, 4] 0) [10, 20] =
      [1, 2, 3, 20] ∧
    ([3, 4, 10, 0, 0, 20] : List ℤ) ≠ [1, 2, 3, 20] := by
  refine ⟨?_, ?_, by decide⟩
  · unfold handleInputAudio isOverflowStatus update_buffer get_buffer_content
      applyFadeOut applyFadeIn linspace scaleRound npRound toInt16
    norm_num [List.zipWith, List.range, List.range.loop]
  · unfold specOnsetPayload get_buffer_content linspace scaleRound npRound
      toInt16
    norm_num [List.zipWith, List.range, List.range.loop]

/-- C2 (amended).  Speech-onset payload composition: on the chunk where the
detector signals entry into a speech run that was not already active, the
payload forwarded to `send_audio_data` (after an `on_speech_start` event)
equals the pre-roll buffer content as it stands after this chunk has been
written into the buffer (the most recent `buffer_size` samples of the old
content followed by the chunk), with its tail linearly ramped out,
concatenated with the new chunk with its head linearly ramped in; the two
ramped sections are disjoint (concatenated, not summed). -/
theorem speech_onset_payload (cfs N : Nat) (st : CaptureState) (chunk : List ℤ)
    (hB : st.audio_buffer.length = N) (hp : st.buffer_pointer ≤ N)
    (hns : st.speech_started = false)
    (hfl : 0 < min cfs (min N chunk.length)) :
    ∃ st2 : CaptureState,
      handleInputAudio cfs N st chunk 0 false true (true, true) false false =
        Except.ok (st2,
          [AudioEvent.speechStart,
           AudioEvent.sendAudio
             (applyFadeOut
               (lastN N (get_buffer_content st.audio_buffer st.buffer_pointer
                 ++ chunk))
               (min cfs (min N chunk.length)) ++
              applyFadeIn chunk (min cfs (min N chunk.length)))],
          true) := by
  have h := handleInputAudio_onset cfs N st chunk 0 rfl hns hB hp
  simp only [if_pos hfl] at h
  exact ⟨_, h⟩

/-- Closed witness for the hypotheses of `speech_onset_payload`. -/
theorem speech_onset_payload_witness :
    ∃ st2 : CaptureState,
      handleInputAudio 2 4 ⟨[1, 2, 3, 4], 0, false, 0⟩ [10, 20] 0 false true
          (true, true) false false =
        Except.ok (st2,
          [AudioEvent.speechStart,
           AudioEvent.sendAudio
             (applyFadeOut
               (lastN 4 (get_buffer_content [1, 2, 3, 4] 0 ++ [10, 20]))
               (min 2 (min 4 2)) ++
              applyFadeIn [10, 20] (min 2 (min 4 2)))],
          true) :=
  speech_onset_payload 2 4 ⟨[1, 2, 3, 4], 0, false, 0⟩ [10, 20] (by decide)
    (by decide) rfl (by decide)

/-- C3 counterexample: with a zero configured cross-fade sample count the
fade length is zero, and the code then forwards the chunk alone
(`combined_audio = audio_data`); the pre-roll content is not concatenated in
front of it, contrary to the claim. -/
theorem cross_fade_zero_counterexample :
    handleInputAudio 0 4 ⟨[1, 2, 3, 4], 0, false, 0⟩ [10, 20] 0 false true
        (true, true) false false =
      Except.ok
        (⟨[10, 20, 10, 20], 4, true, 0⟩,
         [AudioEvent.speechStart, AudioEvent.sendAudio [10, 20]], true) ∧
    ([10, 20] : List ℤ) ≠ [1, 2, 3, 4] ++ [10, 20] ∧
    ([10, 20] : List ℤ) ≠ get_buffer_content [10, 20, 3, 4] 2 ++ [10, 20] := by
  refine ⟨by rfl, by decide, by decide⟩

/-- C3 (amended).  Cross-fade precision: whenever the speech-onset cross-fade
is computed, the pre-roll content length that enters the fade-length `min` is
the buffer capacity `N`, so `fade_length = min cfs (min N chunk.length)`; for
a positive fade length the payload is the content with its last `fade_length`
samples scaled by the linear `1.0 → 0.0` ramp, concatenated with the chunk
with its first `fade_length` samples scaled by the linear `0.0 → 1.0` ramp
(scaled in rational arithmetic, rounded, and cast back to int16); when the
fade length is zero the fading step is skipped and the payload is the bare
chunk, without the pre-roll content. -/
theorem cross_fade_precision (cfs N : Nat) (st : CaptureState) (chunk : List ℤ)
    (hB : st.audio_buffer.length = N) (hp : st.buffer_pointer ≤ N)
    (hns : st.speech_started = false) :
    (get_buffer_content
        (update_buffer chunk st.audio_buffer st.buffer_pointer N).1
        (update_buffer chunk st.audio_buffer st.buffer_pointer N).2).length = N
    ∧
    ∃ st2 : CaptureState,
      handleInputAudio cfs N st chunk 0 false true (true, true) false false =
        Except.ok (st2,
          [AudioEvent.speechStart,
           AudioEvent.sendAudio
             (if 0 < min cfs (min N chunk.length) then
               applyFadeOut
                 (lastN N (get_buffer_content st.audio_buffer st.buffer_pointer
                   ++ chunk))
                 (min cfs (min N chunk.length)) ++
                applyFadeIn chunk (min cfs (min N chunk.length))
             else chunk)],
          true) :=
  ⟨get_buffer_content_length _ (update_buffer_length hB chunk hp),
   ⟨_, handleInputAudio_onset cfs N st chunk 0 rfl hns hB hp⟩⟩

/-- Closed witness for the hypotheses of `cross_fade_precision`. -/
theorem cross_fade_precision_witness :
    (get_buffer_content (update_buffer [1] [7, 8, 9] 0 3).1
        (update_buffer [1] [7, 8, 9] 0 3).2).length = 3 ∧
    ∃ st2 : CaptureState,
      handleInputAudio 5 3 ⟨[7, 8, 9], 0, false, 0⟩ [1] 0 false true
          (true, true) false false =
        Except.ok (st2,
          [AudioEvent.speechStart,
           AudioEvent.sendAudio
             (if 0 < min 5 (min 3 ([1] : List ℤ).length) then
               applyFadeOut (lastN 3 (get_buffer_content [7, 8, 9] 0 ++ [1]))
                 (min 5 (min 3 ([1] : List ℤ).length)) ++
                applyFadeIn [1] (min 5 (min 3 ([1] : List ℤ).length))
             else [1])],
          true) :=
  cross_fade_precision 5 3 ⟨[7, 8, 9], 0, false, 0⟩ [1] (by decide) (by decide)
    rfl

/-- C4 counterexample: an exception raised by an event-handler callback
during the speech-onset processing is not caught — the callback raises
instead of returning the continue signal, so a processing exception can tear
the stream down (the `try/except` blocks cover only the byte conversion and
the VAD call). -/
theorem callback_exception_counterexample :
    handleInputAudio 1 2 ⟨[0, 0], 0, false, 0⟩ [5] 0 false true (true, true)
        false true = Except.error () := by
  rfl

set_option maxHeartbeats 1000000 in
/-- C4 (amended).  Exception containment covers only part of the callback:
when no event-handler call raises, every path returns the continue signal;
and an exception from the byte-to-sample conversion is caught, dropping the
chunk while leaving the state unchanged.  (Exceptions from the buffer or
cross-fade section and from the event-handler callbacks propagate, as the
counterexample shows.) -/
theorem callback_exception_containment (cfs N : Nat) (st : CaptureState)
    (indata : List ℤ) (status : Nat) (convFails vadConfigured : Bool)
    (vadResult : Bool × Bool) (vadFails : Bool) :
    (∃ st2 evs, handleInputAudio cfs N st indata status convFails
        vadConfigured vadResult vadFails false = Except.ok (st2, evs, true)) ∧
    (isOverflowStatus status = false →
      handleInputAudio cfs N st indata status true vadConfigured vadResult
        vadFails false = Except.ok (st, [], true)) := by
  constructor
  · unfold handleInputAudio
    simp only [Bool.false_eq_true, if_false]
    split_ifs <;> exact ⟨_, _, rfl⟩
  · intro hst
    unfold handleInputAudio
    rw [hst, if_neg Bool.false_ne_true, if_pos rfl]

/-- Closed witness for the hypothesis of `callback_exception_containment`. -/
theorem callback_exception_containment_witness :
    (∃ st2 evs, handleInputAudio 1 2 ⟨[0, 0], 0, false, 0⟩ [5] 0 true true
        (true, true) false false = Except.ok (st2, evs, true)) ∧
    handleInputAudio 1 2 ⟨[0, 0], 0, false, 0⟩ [5] 0 true true (true, true)
        false false = Except.ok (⟨[0, 0], 0, false, 0⟩, [], true) :=
  ⟨(callback_exception_containment 1 2 ⟨[0, 0], 0, false, 0⟩ [5] 0 true true
      (true, true) false).1,
   (callback_exception_containment 1 2 ⟨[0, 0], 0, false, 0⟩ [5] 0 true true
      (true, true) false).2 (by rfl)⟩

/-- C7 counterexample: a `vad_parameters` bundle whose detector construction
raises does not make `AudioCapture.__init__` raise — construction returns
normally (with the VAD disabled), contradicting the claim that construction
fails loudly to the caller. -/
theorem vad_load_failure_counterexample :
    audioCaptureInit true true false false = Except.ok false ∧
    Except.ok false ≠ (Except.error () : Except Unit Bool) := by
  exact ⟨rfl, by simp⟩

/-- C7 (amended).  VAD model-load failure semantics: when the detector
construction raises, `AudioCapture.__init__` catches the error, logs it, and
falls back to the no-VAD configuration (`self.vad = None`); it does not
re-raise.  In that configuration every non-overflow chunk is forwarded
directly to the handler. -/
theorem vad_load_failure_fallback (keywordModelProvided : Bool)
    (cfs N : Nat) (st : CaptureState) (indata : List ℤ) (status : Nat)
    (hst : isOverflowStatus status = false) :
    audioCaptureInit true true keywordModelProvided false = Except.ok false ∧
    handleInputAudio cfs N st indata status false false (true, true) false
        false = Except.ok (st, [AudioEvent.sendAudio indata], true) := by
  constructor
  · unfold audioCaptureInit
    simp
  · unfold handleInputAudio
    rw [hst]
    simp

/-- Closed witness for the hypothesis of `vad_load_failure_fallback`. -/
theorem vad_load_failure_fallback_witness :
    audioCaptureInit true true false false = Except.ok false ∧
    handleInputAudio 1 2 ⟨[0, 0], 0, false, 0⟩ [5] 0 false false (true, true)
        false false =
      Except.ok (⟨[0, 0], 0, false, 0⟩, [AudioEvent.sendAudio [5]], true) :=
  vad_load_failure_fallback false 1 2 ⟨[0, 0], 0, false, 0⟩ [5] 0 (by rfl)

/-- C8.  Overflow drop is a pure drop: for every callback invocation whose
status flags indicate input overflow, `handle_input_audio` increments the
overflow counter and returns the continue signal immediately, with no events
emitted and the pre-roll buffer, buffer pointer, and `speech_started` flag
left unchanged. -/
theorem overflow_drop_pure (cfs N : Nat) (st : CaptureState) (indata : List ℤ)
    (status : Nat) (convFails vadConfigured : Bool) (vadResult : Bool × Bool)
    (vadFails handlerFails : Bool) (hov : isOverflowStatus status = true) :
    handleInputAudio cfs N st indata status convFails vadConfigured vadResult
        vadFails handlerFails =
      Except.ok ({ st with overflow_count := st.overflow_count + 1 }, [],
        true) := by
  unfold handleInputAudio
  rw [hov]
  simp

/-- Closed witness for the hypothesis of `overflow_drop_pure`. -/
theorem overflow_drop_pure_witness :
    handleInputAudio 1 2 ⟨[0, 0], 0, false, 0⟩ [5] 2 false true (true, true)
        false false = Except.ok (⟨[0, 0], 0, false, 1⟩, [], true) :=
  overflow_drop_pure 1 2 ⟨[0, 0], 0, false, 0⟩ [5] 2 false true (true, true)
    false false (by decide)

/-- C5.  Conversation state machine transitions: from `IDLE`, of the four
handler entry points only `on_keyword_detected` changes the state (to
`KEYWORD_DETECTED`); from `KEYWORD_DETECTED`, `on_speech_start` moves to
`CONVERSATION_ACTIVE` and cancels the silence timer; from
`CONVERSATION_ACTIVE` with no server-side turn detection, `on_speech_end`
dispatches exactly one `generate_response` call and (re)starts the silence
timer. -/
theorem conversation_state_transitions (st : HandlerState)
    (turnDetectionNone audioPlaying : Bool) (cap : Nat) (chunk : List ℤ) :
    (st.state = ConversationState.IDLE →
      (on_speech_start turnDetectionNone audioPlaying st).1.state =
        ConversationState.IDLE ∧
      (on_speech_end turnDetectionNone st).1.state = ConversationState.IDLE ∧
      send_audio_data cap st chunk = st ∧
      (on_keyword_detected st).1.state = ConversationState.KEYWORD_DETECTED) ∧
    (st.state = ConversationState.KEYWORD_DETECTED →
      (on_speech_start turnDetectionNone audioPlaying st).1.state =
        ConversationState.CONVERSATION_ACTIVE ∧
      (on_speech_start turnDetectionNone audioPlaying st).1.timerActive =
        false) ∧
    (st.state = ConversationState.CONVERSATION_ACTIVE →
      turnDetectionNone = true →
      (on_speech_end turnDetectionNone st).2 =
        [RemoteCall.generateResponse] ∧
      (on_speech_end turnDetectionNone st).1.timerActive = true ∧
      (on_speech_end turnDetectionNone st).1.timerStarts =
        st.timerStarts + 1) := by
  refine ⟨?_, ?_, ?_⟩
  · intro h
    refine ⟨?_, ?_, ?_, ?_⟩
    · simp [on_speech_start, h, set_state, cancel_silence_timer, apply_ite]
    · simp [on_speech_end, h]
    · simp [send_audio_data, h]
    · simp [on_keyword_detected, set_state, start_silence_timer,
        cancel_silence_timer]
  · intro h
    constructor
    · simp [on_speech_start, h, set_state, cancel_silence_timer, apply_ite]
    · simp [on_speech_start, h, set_state, cancel_silence_timer, apply_ite]
  · intro h htd
    refine ⟨?_, ?_, ?_⟩
    · simp [on_speech_end, h, htd]
    · simp [on_speech_end, h, htd, start_silence_timer, cancel_silence_timer]
    · simp [on_speech_end, h, htd, start_silence_timer, cancel_silence_timer]

/-- Closed witness for the hypotheses of `conversation_state_transitions`,
applied in each of the three source states. -/
theorem conversation_state_transitions_witness :
    ((on_speech_start true false
        ⟨ConversationState.IDLE, false, 0, [], 0, 0⟩).1.state =
      ConversationState.IDLE ∧
     (on_speech_end true ⟨ConversationState.IDLE, false, 0, [], 0, 0⟩).1.state =
      ConversationState.IDLE ∧
     send_audio_data 4 ⟨ConversationState.IDLE, false, 0, [], 0, 0⟩ [1] =
      ⟨ConversationState.IDLE, false, 0, [], 0, 0⟩ ∧
     (on_keyword_detected
        ⟨ConversationState.IDLE, false, 0, [], 0, 0⟩).1.state =
      ConversationState.KEYWORD_DETECTED) ∧
    ((on_speech_start true false
        ⟨ConversationState.KEYWORD_DETECTED, true, 1, [], 0, 0⟩).1.state =
      ConversationState.CONVERSATION_ACTIVE ∧
     (on_speech_start true false
        ⟨ConversationState.KEYWORD_DETECTED, true, 1, [], 0, 0⟩).1.timerActive =
      false) ∧
    ((on_speech_end true
        ⟨ConversationState.CONVERSATION_ACTIVE, false, 0, [], 0, 0⟩).2 =
      [RemoteCall.generateResponse] ∧
     (on_speech_end true
        ⟨ConversationState.CONVERSATION_ACTIVE, false, 0, [], 0, 0⟩).1.timerActive =
      true ∧
     (on_speech_end true
        ⟨ConversationState.CONVERSATION_ACTIVE, false, 0, [], 0, 0⟩).1.timerStarts =
      1) :=
  ⟨(conversation_state_transitions ⟨ConversationState.IDLE, false, 0, [], 0, 0⟩
      true false 4 [1]).1 rfl,
   (conversation_state_transitions
      ⟨ConversationState.KEYWORD_DETECTED, true, 1, [], 0, 0⟩
      true false 4 [1]).2.1 rfl,
   (conversation_state_transitions
      ⟨ConversationState.CONVERSATION_ACTIVE, false, 0, [], 0, 0⟩
      true false 4 [1]).2.2 rfl rfl⟩

lemma lastN_of_length_le {α : Type*} {n : Nat} {l : List α}
    (h : l.length ≤ n) : lastN n l = l := by
  unfold lastN
  rw [Nat.sub_eq_zero_of_le h, List.drop_zero]

lemma lastN_length {α : Type*} (n : Nat) (l : List α) :
    (lastN n l).length = l.length - (l.length - n) := by
  simp [lastN]

/-- One enqueue step of `send_audio_data` in the active state on a
well-formed queue: the queue becomes the most recent `cap` chunks of the old
queue followed by the new chunk, stays within capacity, keeps the state, and
bumps the total overflow counter exactly when the queue was full. -/
lemma send_audio_data_step (cap : Nat) (st : HandlerState) (c : List ℤ)
    (hcap : 0 < cap)
    (hstate : st.state = ConversationState.CONVERSATION_ACTIVE)
    (hlen : st.sendQ.length ≤ cap) :
    (send_audio_data cap st c).sendQ = lastN cap (st.sendQ ++ [c]) ∧
    (send_audio_data cap st c).sendQ.length ≤ cap ∧
    (send_audio_data cap st c).state =
      ConversationState.CONVERSATION_ACTIVE ∧
    (send_audio_data cap st c).overflow_total =
      st.overflow_total + (st.sendQ.length + 1 - cap) := by
  unfold send_audio_data
  by_cases hq : cap ≤ st.sendQ.length
  · have hfull : st.sendQ.length = cap := le_antisymm hlen hq
    rw [if_neg (by simp [hstate]), if_pos ⟨hcap, hq⟩]
    refine ⟨?_, ?_, hstate, ?_⟩
    · show st.sendQ.drop 1 ++ [c] = lastN cap (st.sendQ ++ [c])
      unfold lastN
      rw [List.length_append, hfull]
      have h1 : cap + [c].length - cap = 1 := by simp
      rw [h1, List.drop_append_eq_append_drop]
      have h2 : 1 - st.sendQ.length = 0 := by omega
      rw [h2, List.drop_zero]
    · show (st.sendQ.drop 1 ++ [c]).length ≤ cap
      rw [List.length_append, List.length_drop]
      simp
      omega
    · show st.overflow_total + 1 =
        st.overflow_total + (st.sendQ.length + 1 - cap)
      rw [hfull]
      omega
  · push_neg at hq
    rw [if_neg (by simp [hstate]), if_neg (by omega)]
    refine ⟨?_, ?_, hstate, ?_⟩
    · show st.sendQ ++ [c] = lastN cap (st.sendQ ++ [c])
      exact (lastN_of_length_le (by simp; omega)).symm
    · show (st.sendQ ++ [c]).length ≤ cap
      rw [List.length_append]
      simp
      omega
    · show st.overflow_total =
        st.overflow_total + (st.sendQ.length + 1 - cap)
      omega

/-- The enqueue loop invariant: folding `send_audio_data` over a chunk list
from an active state with a within-capacity queue yields the most recent
`cap` entries of old-queue-plus-chunks, and counts one overflow per chunk
beyond the available space. -/
lemma send_audio_data_loop (cap : Nat) (hcap : 0 < cap)
    (chunks : List (List ℤ)) :
    ∀ st : HandlerState,
      st.state = ConversationState.CONVERSATION_ACTIVE →
      st.sendQ.length ≤ cap →
      (chunks.foldl (send_audio_data cap) st).sendQ =
        lastN cap (st.sendQ ++ chunks) ∧
      (chunks.foldl (send_audio_data cap) st).overflow_total =
        st.overflow_total + (st.sendQ.length + chunks.length - cap) := by
  induction chunks with
  | nil =>
      intro st hstate hlen
      constructor
      · rw [List.foldl_nil, List.append_nil, lastN_of_length_le hlen]
      · rw [List.foldl_nil, List.length_nil]
        omega
  | cons c cs ih =>
      intro st hstate hlen
      rw [List.foldl_cons]
      obtain ⟨hq, hle, hst2, hov⟩ := send_audio_data_step cap st c hcap hstate hlen
      obtain ⟨ihq, ihov⟩ := ih (send_audio_data cap st c) hst2 hle
      constructor
      · rw [ihq, hq, lastN_append_lastN, List.append_assoc,
          List.singleton_append]
      · rw [ihov, hov, hq, lastN_length]
        simp only [List.length_append, List.length_cons, List.length_nil]
        omega

/-- C6.  Send-queue drop-oldest policy: `send_audio_data` never blocks (it is
a total function built from the non-blocking queue primitives); when the
bounded queue is full it increments the overflow counters, evicts the oldest
queued chunk and inserts the new one; and enqueueing `cap + K` chunks
sequentially from an empty queue in the active state leaves exactly the last
`cap` chunks in arrival order, having counted `K` overflows. -/
theorem send_queue_drop_oldest (cap : Nat) (hcap : 0 < cap) :
    (∀ (st : HandlerState) (c : List ℤ),
      st.state = ConversationState.CONVERSATION_ACTIVE →
      cap ≤ st.sendQ.length →
      send_audio_data cap st c =
        { note_overflow st with sendQ := st.sendQ.drop 1 ++ [c] }) ∧
    (∀ (K : Nat) (chunks : List (List ℤ)) (st : HandlerState), 0 < K →
      chunks.length = cap + K →
      st.state = ConversationState.CONVERSATION_ACTIVE → st.sendQ = [] →
      (chunks.foldl (send_audio_data cap) st).sendQ = lastN cap chunks ∧
      (chunks.foldl (send_audio_data cap) st).overflow_total =
        st.overflow_total + K) := by
  constructor
  · intro st c hstate hq
    unfold send_audio_data
    simp [hstate, hcap, hq, note_overflow]
  · intro K chunks st hK hlen hstate hq
    obtain ⟨h1, h2⟩ := send_audio_data_loop cap hcap chunks st hstate
      (by rw [hq]; simp)
    constructor
    · rw [h1, hq, List.nil_append]
    · rw [h2, hq, List.length_nil, hlen]
      omega

/-- Closed witness for the hypotheses of `send_queue_drop_oldest`: a full
queue of capacity 2 evicting its oldest chunk, and capacity + 1 chunks
enqueued from empty leaving the last two, with one overflow. -/
theorem send_queue_drop_oldest_witness :
    send_audio_data 2
        ⟨ConversationState.CONVERSATION_ACTIVE, false, 0, [[1], [2]], 0, 0⟩
        [9] =
      ⟨ConversationState.CONVERSATION_ACTIVE, false, 0, [[2], [9]], 1, 1⟩ ∧
    (([[1], [2], [3]] : List (List ℤ)).foldl (send_audio_data 2)
        ⟨ConversationState.CONVERSATION_ACTIVE, false, 0, [], 0, 0⟩).sendQ =
      lastN 2 ([[1], [2], [3]] : List (List ℤ)) ∧
    (([[1], [2], [3]] : List (List ℤ)).foldl (send_audio_data 2)
        ⟨ConversationState.CONVERSATION_ACTIVE, false, 0, [], 0, 0⟩).overflow_total
      = 1 :=
  ⟨(send_queue_drop_oldest 2 (by decide)).1
      ⟨ConversationState.CONVERSATION_ACTIVE, false, 0, [[1], [2]], 0, 0⟩
      [9] rfl (by decide),
   (send_queue_drop_oldest 2 (by decide)).2 1 [[1], [2], [3]]
      ⟨ConversationState.CONVERSATION_ACTIVE, false, 0, [], 0, 0⟩
      (by decide) (by decide) rfl rfl⟩

/-- C9.  Silence-timer expiry behaviour: when the silence timer fires while
assistant playback or function-call processing is in progress, the timer is
restarted and the conversation state is left unchanged; otherwise keyword
recognition is re-armed, the remote input audio buffer is cleared, and the
state transitions to `IDLE` (cancelling the timer). -/
theorem silence_timer_expiry (st : HandlerState)
    (audioPlaying functionProcessing : Bool) :
    ((audioPlaying || functionProcessing) = true →
      reset_state_due_to_silence audioPlaying functionProcessing st =
        (start_silence_timer st, []) ∧
      (start_silence_timer st).state = st.state ∧
      (start_silence_timer st).timerActive = true ∧
      (start_silence_timer st).timerStarts = st.timerStarts + 1) ∧
    (audioPlaying = false → functionProcessing = false →
      reset_state_due_to_silence audioPlaying functionProcessing st =
        (set_state st ConversationState.IDLE,
         [RemoteCall.keywordArmed true, RemoteCall.clearInputAudioBuffer]) ∧
      (set_state st ConversationState.IDLE).state = ConversationState.IDLE ∧
      (set_state st ConversationState.IDLE).timerActive = false) := by
  constructor
  · intro h
    refine ⟨?_, ?_, ?_, ?_⟩
    · simp [reset_state_due_to_silence, h]
    · simp [start_silence_timer, cancel_silence_timer]
    · simp [start_silence_timer, cancel_silence_timer]
    · simp [start_silence_timer, cancel_silence_timer]
  · intro h1 h2
    refine ⟨?_, ?_, ?_⟩
    · simp [reset_state_due_to_silence, h1, h2]
    · simp [set_state, cancel_silence_timer]
    · simp [set_state, cancel_silence_timer]

/-- Closed witness for the hypotheses of `silence_timer_expiry` (busy case
and idle case). -/
theorem silence_timer_expiry_witness :
    (reset_state_due_to_silence true false
        ⟨ConversationState.CONVERSATION_ACTIVE, true, 3, [], 0, 0⟩ =
      (start_silence_timer
        ⟨ConversationState.CONVERSATION_ACTIVE, true, 3, [], 0, 0⟩, []) ∧
     (start_silence_timer
        ⟨ConversationState.CONVERSATION_ACTIVE, true, 3, [], 0, 0⟩).state =
      ConversationState.CONVERSATION_ACTIVE ∧
     (start_silence_timer
        ⟨ConversationState.CONVERSATION_ACTIVE, true, 3, [], 0, 0⟩).timerActive =
      true ∧
     (start_silence_timer
        ⟨ConversationState.CONVERSATION_ACTIVE, true, 3, [], 0, 0⟩).timerStarts =
      4) ∧
    (reset_state_due_to_silence false false
        ⟨ConversationState.KEYWORD_DETECTED, true, 3, [], 0, 0⟩ =
      (set_state ⟨ConversationState.KEYWORD_DETECTED, true, 3, [], 0, 0⟩
         ConversationState.IDLE,
       [RemoteCall.keywordArmed true, RemoteCall.clearInputAudioBuffer]) ∧
     (set_state ⟨ConversationState.KEYWORD_DETECTED, true, 3, [], 0, 0⟩
        ConversationState.IDLE).state = ConversationState.IDLE ∧
     (set_state ⟨ConversationState.KEYWORD_DETECTED, true, 3, [], 0, 0⟩
        ConversationState.IDLE).timerActive = false) :=
  ⟨(silence_timer_expiry
      ⟨ConversationState.CONVERSATION_ACTIVE, true, 3, [], 0, 0⟩ true
      false).1 rfl,
   (silence_timer_expiry
      ⟨ConversationState.KEYWORD_DETECTED, true, 3, [], 0, 0⟩ false
      false).2 rfl rfl⟩

/-- C10.  Implicit audio gating: every call to `send_audio_data` while the
conversation state is not `CONVERSATION_ACTIVE` discards the audio and
leaves the whole handler state — queue, counters, state — unchanged. -/
theorem audio_gating (cap : Nat) (st : HandlerState) (chunk : List ℤ)
    (h : st.state ≠ ConversationState.CONVERSATION_ACTIVE) :
    send_audio_data cap st chunk = st := by
  unfold send_audio_data
  simp [h]

/-- Closed witness for the hypothesis of `audio_gating`. -/
theorem audio_gating_witness :
    send_audio_data 4 ⟨ConversationState.IDLE, false, 0, [[7]], 2, 1⟩ [5] =
      ⟨ConversationState.IDLE, false, 0, [[7]], 2, 1⟩ :=
  audio_gating 4 ⟨ConversationState.IDLE, false, 0, [[7]], 2, 1⟩ [5]
    (by decide)

end AzureAudio
